import Mathlib

/-!
Verification development for the GeoIP lookup service (`src/main.py`).

The Python source is shallowly embedded: CSV rows become structures whose
fields are `Option String` (`none` models a key absent from the row dict),
the global locale dictionaries become insertion-ordered association lists,
and the MMDB index becomes a list of CIDR-keyed records with
longest-prefix-match lookup.  The behavior of the third-party libraries the
code calls (`ipaddress`, `geoip2`, `netaddr`/`mmdb_writer`) is modelled from
their documented semantics where the code depends on it; each such
definition carries a comment saying what it models.
-/

namespace Geoip

/-! ## Python string primitives -/

/-- Whitespace characters removed by Python `str.strip()` (ASCII subset). -/
def isPySpace (c : Char) : Bool :=
  c = ' ' || c = '\t' || c = '\n' || c = '\r' || c = '\x0b' || c = '\x0c'

/-- `str.strip()` on the underlying character list. -/
def stripList (l : List Char) : List Char :=
  ((l.dropWhile isPySpace).reverse.dropWhile isPySpace).reverse

/-- Python `s.strip()`. -/
def pyStrip (s : String) : String := ⟨stripList s.data⟩

/-- Python `s.split(c)` for a one-character separator, on character lists.
`splitOnChar c l` always returns at least one (possibly empty) piece. -/
def splitOnChar (c : Char) : List Char → List (List Char)
  | [] => [[]]
  | x :: xs =>
    if x = c then [] :: splitOnChar c xs
    else (x :: (splitOnChar c xs).headD []) :: (splitOnChar c xs).tail

/-- Python `s.split(c)` returning strings. -/
def pySplit (c : Char) (s : String) : List String :=
  (splitOnChar c s.data).map (fun l => ⟨l⟩)

/-- Python truthiness of a string-or-None value: `None` and `""` are falsy. -/
def pyTruthy (v : Option String) : Bool :=
  match v with
  | none => false
  | some s => s ≠ ""

/-- Python `a or b` on string-or-None values. -/
def pyOr (a b : Option String) : Option String :=
  if pyTruthy a then a else b

/-- Python `a or d` where `d` is a plain string, as in `x or "ZZ"`. -/
def pyOrStr (a : Option String) (d : String) : String :=
  match a with
  | none => d
  | some s => if s ≠ "" then s else d

/-! ## `ipaddress.ip_address` — the standard-library parser used by
`get_ip_version` and `is_valid_ip`.  Modelled from CPython's
`ipaddress._ip_int_from_string` validation for `IPv4Address` and
`IPv6Address` (including the `%scope` split of `ip_address` on 3.9+). -/

/-- Numeric value of a decimal digit string (assumes digits only). -/
def decValue (l : List Char) : Nat :=
  l.foldl (fun n c => n * 10 + (c.toNat - 48)) 0

/-- CPython `IPv4Address._parse_octet`: 1–3 ASCII digits, value ≤ 255,
no leading zero on a multi-digit octet. -/
def octetOk (l : List Char) : Bool :=
  !l.isEmpty && decide (l.length ≤ 3) && l.all Char.isDigit &&
    (decide (l.length = 1) || l.headD '0' ≠ '0') && decide (decValue l ≤ 255)

/-- The four octet values of a valid dotted-quad IPv4 literal. -/
def ipv4Octets? (s : String) : Option (List Nat) :=
  let parts := splitOnChar '.' s.data
  if parts.length = 4 && parts.all octetOk then some (parts.map decValue) else none

/-- `IPv4Address(s)` succeeds. -/
def isIPv4String (s : String) : Bool := (ipv4Octets? s).isSome

/-- The 32-bit integer of a valid IPv4 literal. -/
def ipv4Nat? (s : String) : Option Nat :=
  (ipv4Octets? s).map (fun o => o.foldl (fun n x => n * 256 + x) 0)

/-- Hex digit as accepted by CPython `_parse_hextet`. -/
def isHexDig (c : Char) : Bool :=
  c.isDigit || ('a' ≤ c && c ≤ 'f') || ('A' ≤ c && c ≤ 'F')

/-- CPython `IPv6Address._parse_hextet`: 1–4 hex digits. -/
def hextetOk (l : List Char) : Bool :=
  !l.isEmpty && decide (l.length ≤ 4) && l.all isHexDig

/-- Validation of the colon-separated pieces of an IPv6 literal (after any
trailing-IPv4 expansion), mirroring CPython `IPv6Address._ip_int_from_string`:
at most 9 pieces, at most one empty interior piece (the `::`), an empty end
piece only next to the `::`, at least one zero group skipped, and every
counted piece a valid hextet. -/
def ipv6PartsOk (parts : List (List Char)) : Bool :=
  if parts.length > 9 then false
  else
    let n := parts.length
    let interior := (List.range n).filter
      (fun i => decide (0 < i) && decide (i < n - 1) && (parts.getD i ['x']).isEmpty)
    match interior with
    | [] =>
      decide (n = 8) && !(parts.getD 0 []).isEmpty && !(parts.getD (n - 1) []).isEmpty &&
        parts.all hextetOk
    | [i] =>
      let first := parts.getD 0 ['x']
      let last := parts.getD (n - 1) ['x']
      let hi := if first.isEmpty then 0 else i
      let lo := if last.isEmpty then 0 else n - i - 1
      (!first.isEmpty || decide (i - 1 = 0)) &&
      (!last.isEmpty || decide (n - i - 1 - 1 = 0)) &&
      decide (hi + lo ≤ 7) &&
      (List.range hi).all (fun j => hextetOk (parts.getD j [])) &&
      (List.range lo).all (fun j => hextetOk (parts.getD (n - lo + j) []))
    | _ => false

/-- `IPv6Address` parse (without scope) succeeds on `s`. -/
def ipv6AddrOk (s : String) : Bool :=
  if s.data.isEmpty then false
  else
    let parts := splitOnChar ':' s.data
    if parts.length < 3 then false
    else
      let last := parts.getLastD []
      if last.contains '.' then
        if isIPv4String ⟨last⟩ then ipv6PartsOk (parts.dropLast ++ [['0'], ['0']])
        else false
      else ipv6PartsOk parts

/-- `IPv6Address(s)` succeeds, allowing one `%scope` suffix with a non-empty
scope id. -/
def ipv6WithScopeOk (s : String) : Bool :=
  match splitOnChar '%' s.data with
  | [_] => ipv6AddrOk s
  | [addr, scope] => !scope.isEmpty && ipv6AddrOk ⟨addr⟩
  | _ => false

inductive IpKind where
  | v4
  | v6
deriving DecidableEq

/-- `ipaddress.ip_address(s)` for a string argument: IPv4 first, then IPv6,
else a `ValueError`. -/
def pythonIpKind (s : String) : Option IpKind :=
  if isIPv4String s then some IpKind.v4
  else if ipv6WithScopeOk s then some IpKind.v6
  else none

/-! ## `get_ip_version` and `is_valid_ip` (src/main.py lines 63–75) -/

/-- `get_ip_version` from src/main.py. -/
def get_ip_version (ip : String) : String :=
  match pythonIpKind ip with
  | some IpKind.v4 => "IPv4"
  | some IpKind.v6 => "IPv6"
  | none => "Invalid IP Address"

/-- `is_valid_ip` from src/main.py: parses only `ip.split(":")[0]`. -/
def is_valid_ip (ip : String) : Bool :=
  (pythonIpKind ((pySplit ':' ip).headD "")).isSome

/-! ## Label store (`load_location_labels`, src/main.py lines 27–58)

A CSV row from `csv.DictReader`: each field is `Option String`, `none`
modelling a key that is absent from the row dict (e.g. a column missing from
the header).  The code checks `"geoname_id" not in row` — key absence, not
emptiness — so a row whose `geoname_id` field is the empty string is stored
under the key `""`. -/

structure LabelRow where
  geoname_id : Option String
  locale_code : Option String
  continent_name : Option String
  country_name : Option String
  city_name : Option String
  country_iso_code : Option String
  continent_code : Option String
deriving DecidableEq

/-- The value dict stored in `arabic_locations` / `english_locations`: the
three name fields get their locale default at load time (`row.get(k, d)`),
the two code fields are stored raw (`row.get(k)`, possibly `None`). -/
structure LocEntry where
  continent_name : String
  country_name : String
  city_name : String
  country_iso_code : Option String
  continent_code : Option String
deriving DecidableEq

/-- The value stored for an `"ar"` row. -/
def arEntry (r : LabelRow) : LocEntry :=
  { continent_name := r.continent_name.getD "غير معروف"
    country_name := r.country_name.getD "غير معروف"
    city_name := r.city_name.getD "غير معروف"
    country_iso_code := r.country_iso_code
    continent_code := r.continent_code }

/-- The value stored for any non-`"ar"` row. -/
def enEntry (r : LabelRow) : LocEntry :=
  { continent_name := r.continent_name.getD "Unknown"
    country_name := r.country_name.getD "Unknown"
    city_name := r.city_name.getD "Unknown"
    country_iso_code := r.country_iso_code
    continent_code := r.continent_code }

/-- A Python dict keyed by geoname id, as an insertion-ordered association
list; assignment appends, lookup takes the latest binding. -/
abbrev LocMap := List (String × LocEntry)

/-- Python dict lookup (`m.get(k)`): the most recent binding wins. -/
def dget : LocMap → String → Option LocEntry
  | [], _ => none
  | (k, v) :: rest, g =>
    match dget rest g with
    | some w => some w
    | none => if k = g then some v else none

/-- `load_location_labels`: partitions rows into the Arabic and English maps,
skipping any row whose dict has no `geoname_id` key.  Returns
`(arabic_locations, english_locations)`. -/
def load_location_labels : List LabelRow → LocMap × LocMap
  | [] => ([], [])
  | r :: rest =>
    let acc := load_location_labels rest
    match r.geoname_id with
    | none => acc
    | some g =>
      if r.locale_code = some "ar" then ((g, arEntry r) :: acc.1, acc.2)
      else (acc.1, (g, enEntry r) :: acc.2)

/-! ## Merged geo record (`rebuild_mmdb`, src/main.py lines 259–289) -/

structure Names where
  en : String
  ar : String
deriving DecidableEq

structure CountryRec where
  id : String
  names : Names
  iso_code : Option String
deriving DecidableEq

structure CityRec where
  id : String
  geoname_id : String
  names : Names
deriving DecidableEq

structure ContinentRec where
  names : Names
  code : Option String
deriving DecidableEq

structure LocationRec where
  latitude : String
  longitude : String
  time_zone : Option String
  postal_code : String
deriving DecidableEq

structure GeoRecord where
  country : CountryRec
  city : CityRec
  continent : ContinentRec
  location : LocationRec
deriving DecidableEq

/-- The `record` dict built for one block row inside `rebuild_mmdb`.
`city_id` and `country_id` arrive already stripped (the code strips them
right after reading the row); `lat`, `lon`, `postal` are the raw row values,
stripped here as in the source.  `LocEntry` dicts never contain a
`"time_zone"` key, so `ar.get("time_zone") or en.get("time_zone","Unknown")`
is written out as `pyOr none (some "Unknown")`. -/
def mergeRecord (ar en : LocMap) (city_id country_id lat lon postal : String) :
    GeoRecord :=
  let ar_country := dget ar country_id
  let ar_city := dget ar city_id
  let en_city := dget en city_id
  let en_country := dget en country_id
  { country :=
      { id := country_id
        names :=
          { en := (en_country.map LocEntry.country_name).getD "Unknown"
            ar := (ar_country.map LocEntry.country_name).getD "غير معروف" }
        iso_code :=
          pyOr (ar_country.bind LocEntry.country_iso_code)
            (match en_country with
             | some e => e.country_iso_code
             | none => some "ZZ") }
    city :=
      { id := city_id
        geoname_id := city_id
        names :=
          { en := (en_city.map LocEntry.city_name).getD "Unknown"
            ar := (ar_city.map LocEntry.city_name).getD "غير معروف" } }
    continent :=
      { names :=
          { en := (en_country.map LocEntry.continent_name).getD "Unknown"
            ar := (ar_country.map LocEntry.continent_name).getD "غير معروف" }
        code :=
          pyOr (ar_country.bind LocEntry.continent_code)
            (match en_country with
             | some e => e.continent_code
             | none => some "XX") }
    location :=
      { latitude := pyStrip lat
        longitude := pyStrip lon
        time_zone := pyOr none (some "Unknown")
        postal_code := pyStrip postal } }

/-! ## Lookup index

Models the persisted MMDB file: a list of CIDR-keyed records in insertion
order.  `lookupLPM` is longest-prefix-match, preferring the latest insert on
equal prefix length. -/

structure Cidr where
  addr : Nat
  len : Nat
deriving DecidableEq

/-- Whether the 32-bit address `ip` lies inside the CIDR block. -/
def cidrContains (c : Cidr) (ip : Nat) : Bool :=
  ip / 2 ^ (32 - c.len) = c.addr / 2 ^ (32 - c.len)

abbrev Db := List (Cidr × GeoRecord)

/-- Longest-prefix-match over the index. -/
def lookupLPM (db : Db) (ip : Nat) : Option (Cidr × GeoRecord) :=
  db.foldl
    (fun best e =>
      if cidrContains e.1 ip then
        match best with
        | none => some e
        | some b => if b.1.len ≤ e.1.len then some e else best
      else best)
    none

/-- Modelled behavior of `IPSet([network])` + `MMDBWriter(ip_version=4)
.insert_network`: the insert succeeds exactly when the network string is an
IPv4 dotted quad with an optional `/0`–`/32` mask; anything else (malformed
strings, IPv6 networks in the v4-only writer) raises and is recorded as a
per-row insert failure. -/
def parseNetwork (s : String) : Option Cidr :=
  match splitOnChar '/' s.data with
  | [a] => (ipv4Nat? ⟨a⟩).map (fun n => { addr := n, len := 32 })
  | [a, m] =>
    match ipv4Nat? ⟨a⟩ with
    | none => none
    | some n =>
      if !m.isEmpty && m.all Char.isDigit && decide (decValue m ≤ 32) then
        some { addr := n, len := decValue m }
      else none
  | _ => none

/-! ## Query engine (`find_geo`, src/main.py lines 77–149) -/

/-- `str(e)` of geoip2's `AddressNotFoundError`. -/
def notInDbMsg (ip : String) : String :=
  "The address " ++ ip ++ " is not in the database."

/-- `str(e)` of the `ValueError` maxminddb raises for a non-IP lookup string
(Python renders the address in quotes; the quotes are elided here). -/
def notIpMsg (ip : String) : String :=
  ip ++ " does not appear to be an IPv4 or IPv6 address"

/-- `str(e)` when an IPv6 address is looked up in the IPv4-only database. -/
def v6InV4Msg (ip : String) : String :=
  "Error looking up " ++ ip ++ ". " ++
    "You attempted to look up an IPv6 address in an IPv4-only database."

/-- `str(e)` when `Reader(MMDB_OUTPUT)` cannot open the persisted index. -/
def readerOpenErr : String :=
  "[Errno 2] No such file or directory: ./db/GeoLite2-City-Custom.mmdb"

/-- Modelled behavior of `geoip2.database.Reader.city` on the custom v4-only
database: raises (returns `.error`) for a string that is not an IP literal,
for an IPv6 address, and — per geoip2's documented contract — an
`AddressNotFoundError` for an address not covered by any inserted network;
otherwise returns the stored record of the longest matching prefix. -/
def reader_city (db : Db) (ip : String) : Except String GeoRecord :=
  match pythonIpKind ip with
  | none => Except.error (notIpMsg ip)
  | some IpKind.v6 => Except.error (v6InV4Msg ip)
  | some IpKind.v4 =>
    match lookupLPM db ((ipv4Nat? ip).getD 0) with
    | some e => Except.ok e.2
    | none => Except.error (notInDbMsg ip)

structure CountryOut where
  iso_code : String
  en : String
  ar : String
deriving DecidableEq

structure ContinentOut where
  code : String
  en : String
  ar : String
deriving DecidableEq

structure LocationOut where
  latitude : Option String
  longitude : Option String
  postal_code : Option String
deriving DecidableEq

structure CityOut where
  en : String
  ar : String
deriving DecidableEq

/-- The `geoipdata` dict returned by `find_geo`.  An outer `none` models a
key that is absent from the dict (the exception path never sets the geo
keys); `map`/`city` are `Option (Option _)` because the success path can set
them to Python `None`. -/
structure GeoResult where
  ip : String
  ip_version : String
  generatedAt : String
  country : Option CountryOut
  continent : Option ContinentOut
  location : Option LocationOut
  map : Option (Option String)
  city : Option (Option CityOut)
  error : Option String
deriving DecidableEq

/-- The google-maps link built by `find_geo`. -/
def mapUrl (lat lon : String) : String :=
  "https://www.google.com/maps/@" ++ lat ++ "," ++ lon ++ ",15z"

/-- `find_geo` from src/main.py.  `db` is the persisted index (`none` when
the MMDB file cannot be opened); `now` is `datetime.now().isoformat()`.
On the success path: geoip2's response objects (`resp`, `resp.country`,
`resp.continent`, `resp.location`, `resp.city`) are plain record objects and
always truthy, so every `else` branch of the `if resp and ...` tests is
unreachable; the stored records put both `"en"` and `"ar"` in every names
dict, so `names.get` always finds its key; the stored records have no
`"postal"` section, so `resp.postal.code` is `None`; and the stored
latitude/longitude are the *strings* written by `rebuild_mmdb`, so the
map-link test `if resp.location.latitude and resp.location.longitude` is
string truthiness (non-empty). -/
def find_geo (db : Option Db) (now ip : String) : GeoResult :=
  let base : GeoResult :=
    { ip := ip, ip_version := get_ip_version ip, generatedAt := now
      country := none, continent := none, location := none
      map := none, city := none, error := none }
  match db with
  | none => { base with error := some readerOpenErr }
  | some d =>
    match reader_city d ip with
    | Except.error e => { base with error := some e }
    | Except.ok r =>
      { base with
        country := some
          { iso_code := pyOrStr r.country.iso_code "ZZ"
            en := r.country.names.en
            ar := r.country.names.ar }
        continent := some
          { code := pyOrStr r.continent.code "XX"
            en := r.continent.names.en
            ar := r.continent.names.ar }
        location := some
          { latitude := some r.location.latitude
            longitude := some r.location.longitude
            postal_code := none }
        map := some
          (if r.location.latitude ≠ "" && r.location.longitude ≠ "" then
            some (mapUrl r.location.latitude r.location.longitude)
          else none)
        city := some (some { en := r.city.names.en, ar := r.city.names.ar }) }

/-- The JSON value returned by the `/ip/{input_ip}` route. -/
inductive ApiResult where
  | geo (g : GeoResult)
  | err (message : String)
deriving DecidableEq

/-- `get_geo_for_ip` from src/main.py lines 158–162. -/
def get_geo_for_ip (db : Option Db) (now ip : String) : ApiResult :=
  if is_valid_ip ip then ApiResult.geo (find_geo db now ip)
  else ApiResult.err "Invalid IP address"

/-! ## Rebuild orchestrator (`rebuild_mmdb`, src/main.py lines 218–315) -/

/-- A CSV row of the blocks table; `none` models an absent key, on which
`row["k"]` raises a `KeyError` that aborts the whole rebuild. -/
structure BlockRow where
  network : Option String
  geoname_id : Option String
  registered_country_geoname_id : Option String
  latitude : Option String
  longitude : Option String
  postal_code : Option String
deriving DecidableEq

/-- `str(e)` of a `KeyError` for key `k` (Python renders the key in quotes;
the quotes are elided here). -/
def keyErrMsg (k : String) : String := "KeyError: " ++ k

/-- `str(e)` of the netaddr error raised for an unparsable network. -/
def netErrMsg (s : String) : String := "invalid IPNetwork " ++ s

/-- One entry of the rebuild `errors` list: `f"⚠️ \x7bnetwork\x7d: \x7be\x7d"`. -/
def insertErr (net msg : String) : String := "⚠️ " ++ net ++ ": " ++ msg

/-- The response dict of `/geoip/rebuild`: `errors := none` models a response
without an `errors` key. -/
structure RebuildResult where
  status : String
  message : String
  errors : Option (List String)
deriving DecidableEq

def successMsg (n : Nat) : String :=
  "MMDB file rebuilt with " ++ toString n ++ " records."

def errorsMsg (n : Nat) : String :=
  "MMDB file rebuilt with " ++ toString n ++ " records, but some errors occurred."

/-- The row loop of `rebuild_mmdb`: streams block rows, skips rows whose
stripped `registered_country_geoname_id` is empty, merges the rest and
inserts them, collecting one error entry per failed insert.  Returns
`.error` when a row access raises (missing key), which aborts the rebuild;
otherwise the inserted entries in order, the success count, and the error
list. -/
def processRows (ar en : LocMap) : List BlockRow → Except String (Db × Nat × List String)
  | [] => Except.ok ([], 0, [])
  | row :: rest =>
    match row.network with
    | none => Except.error (keyErrMsg "network")
    | some network =>
      match row.geoname_id with
      | none => Except.error (keyErrMsg "geoname_id")
      | some g =>
        match row.registered_country_geoname_id with
        | none => Except.error (keyErrMsg "registered_country_geoname_id")
        | some rc =>
          let city_id := pyStrip g
          let country_id := pyStrip rc
          if country_id = "" then processRows ar en rest
          else
            match row.latitude with
            | none => Except.error (keyErrMsg "latitude")
            | some lat =>
              match row.longitude with
              | none => Except.error (keyErrMsg "longitude")
              | some lon =>
                match row.postal_code with
                | none => Except.error (keyErrMsg "postal_code")
                | some pc =>
                  let record := mergeRecord ar en city_id country_id lat lon pc
                  match parseNetwork network with
                  | some c =>
                    match processRows ar en rest with
                    | Except.ok (db, n, es) => Except.ok ((c, record) :: db, n + 1, es)
                    | Except.error e => Except.error e
                  | none =>
                    match processRows ar en rest with
                    | Except.ok (db, n, es) =>
                      Except.ok (db, n, insertErr network (netErrMsg network) :: es)
                    | Except.error e => Except.error e

/-- Opening and streaming the blocks source: `source` is `.error` when the
CSV file cannot be opened. -/
def streamPhase (ar en : LocMap) (source : Except String (List BlockRow)) :
    Except String (Db × Nat × List String) :=
  match source with
  | Except.error e => Except.error e
  | Except.ok rows => processRows ar en rows

/-- `rebuild_mmdb` from src/main.py.  `writeRes` models `to_db_file`
(serialization); `oldDb` is the previously persisted index, and the second
component of the result is the index that is persisted afterwards.  The file
is only written in the serialization step, so any earlier failure leaves
`oldDb` in place.  (A failure *inside* `to_db_file` after it has opened the
output file could truncate it; that corner is outside every claim and is
modelled as leaving the old index.) -/
def rebuild_mmdb (ar en : LocMap) (source : Except String (List BlockRow))
    (writeRes : Except String Unit) (oldDb : Option Db) :
    RebuildResult × Option Db :=
  match streamPhase ar en source with
  | Except.error e => ({ status := "error", message := e, errors := none }, oldDb)
  | Except.ok (db, n, errors) =>
    match writeRes with
    | Except.error e => ({ status := "error", message := e, errors := none }, oldDb)
    | Except.ok _ =>
      if errors = [] then
        ({ status := "success", message := successMsg n, errors := none }, some db)
      else
        ({ status := "partial_success", message := errorsMsg n, errors := some errors },
          some db)

/-! ## Helper lemmas -/

lemma splitOnChar_ne_nil (c : Char) (l : List Char) : splitOnChar c l ≠ [] := by
  cases l with
  | nil => simp [splitOnChar]
  | cons x xs =>
    simp only [splitOnChar]
    split <;> simp

lemma splitOnChar_append (c : Char) (a b : List Char) (h : c ∉ a) :
    splitOnChar c (a ++ c :: b) = a :: splitOnChar c b := by
  induction a with
  | nil => simp [splitOnChar]
  | cons x xs ih =>
    have hx : ¬(x = c) := fun e => h (by simp [e])
    have hxs : c ∉ xs := fun m => h (List.mem_cons_of_mem _ m)
    simp [splitOnChar, hx, ih hxs]

lemma is_valid_ip_append (A rest : String) (h : ':' ∉ A.data) :
    is_valid_ip (A ++ ":" ++ rest) = (pythonIpKind A).isSome := by
  have hd : (A ++ ":" ++ rest).data = A.data ++ ':' :: rest.data := by
    rw [String.data_append, String.data_append]
    simp
  unfold is_valid_ip pySplit
  rw [hd, splitOnChar_append ':' A.data rest.data h]
  rfl

/-! ## Concrete fixtures used by witnesses and counterexamples -/

/-- A merged record with no matching labels: all-fallback text. -/
def sampleRecord : GeoRecord := mergeRecord [] [] "9" "7" "10.5" "20.5" "12345"

/-- An index holding only `1.0.0.0/8`. -/
def c1Db : Db := [({ addr := 16777216, len := 8 }, sampleRecord)]

/-- An English label row whose iso/continent code fields are empty strings. -/
def enRowEmptyCodes : LabelRow :=
  { geoname_id := some "7", locale_code := some "en"
    continent_name := some "Europe", country_name := some "Nowhere"
    city_name := some "Town", country_iso_code := some "", continent_code := some "" }

/-- An Arabic label row carrying real codes. -/
def arRowSA : LabelRow :=
  { geoname_id := some "7", locale_code := some "ar"
    continent_name := some "آسيا", country_name := some "السعودية"
    city_name := some "الرياض", country_iso_code := some "SA", continent_code := some "AS" }

/-- A label row whose `geoname_id` field is present but empty: it is stored
under the dict key `""`. -/
def ghostRow : LabelRow :=
  { geoname_id := some "", locale_code := some "en"
    continent_name := none, country_name := none
    city_name := some "Ghost", country_iso_code := none, continent_code := none }

/-- A label row whose dict lacks the `geoname_id` key entirely. -/
def keylessRow : LabelRow :=
  { geoname_id := none, locale_code := some "ar"
    continent_name := some "x", country_name := some "y"
    city_name := some "z", country_iso_code := some "QQ", continent_code := some "QQ" }

/-- A record whose stored latitude is the string `"0"`. -/
def zeroLatRecord : GeoRecord := mergeRecord [] [] "9" "7" "0" "10.5" ""

/-- An index whose single `0.0.0.0/0` entry covers every address. -/
def zeroLatDb : Db := [({ addr := 0, len := 0 }, zeroLatRecord)]

/-- A block row that inserts cleanly. -/
def goodRow1 : BlockRow :=
  { network := some "1.0.0.0/24", geoname_id := some "9"
    registered_country_geoname_id := some "7"
    latitude := some "1.0", longitude := some "2.0", postal_code := some "" }

/-- A block row whose network does not parse. -/
def badRow1 : BlockRow :=
  { network := some "not-a-net", geoname_id := some "9"
    registered_country_geoname_id := some "7"
    latitude := some "1.0", longitude := some "2.0", postal_code := some "" }

/-- A block row whose stripped country id is empty: skipped by the build. -/
def skipRow1 : BlockRow :=
  { network := some "2.0.0.0/24", geoname_id := some "9"
    registered_country_geoname_id := some " "
    latitude := some "1.0", longitude := some "2.0", postal_code := some "" }

/-! ## Claim C1 -/

/-- C1 (code bug): for a syntactically valid IPv4 address covered by no
inserted network, `find_geo` does *not* return the fixed-fallback record
with no error: geoip2's `Reader.city` raises `AddressNotFoundError` for an
uncovered address, the blanket `except` stores its message in the `error`
field, and the result carries no `country`/`continent`/`city` keys at all —
the fallback `else` branches of `find_geo` are unreachable. -/
theorem c1_not_found_is_error_not_fallback :
    is_valid_ip "10.0.0.1" = true ∧
    (∀ p ∈ c1Db, cidrContains p.1 ((ipv4Nat? "10.0.0.1").getD 0) = false) ∧
    (find_geo (some c1Db) "2026-01-01T00:00:00" "10.0.0.1").error =
      some (notInDbMsg "10.0.0.1") ∧
    (find_geo (some c1Db) "2026-01-01T00:00:00" "10.0.0.1").country = none ∧
    (find_geo (some c1Db) "2026-01-01T00:00:00" "10.0.0.1").continent = none ∧
    (find_geo (some c1Db) "2026-01-01T00:00:00" "10.0.0.1").city = none := by
  decide

/-! ## Claim C2 -/

/-- C2, counterexample: `"::1"` is a syntactically valid IPv6 literal (the
embedded `ipaddress` model accepts it), yet the resolve boundary rejects it
with the invalid-address result instead of proceeding to lookup, because
`is_valid_ip` parses only the text before the first colon. -/
theorem c2_counterexample_valid_ipv6_rejected :
    ipv6WithScopeOk "::1" = true ∧ pythonIpKind "::1" = some IpKind.v6 ∧
    get_geo_for_ip (some []) "2026-01-01T00:00:00" "::1" =
      ApiResult.err "Invalid IP address" := by
  decide

/-- C2, amended: the boundary accepts a string exactly when `is_valid_ip`
does — i.e. when the prefix before the first colon parses as an IP literal —
so valid IPv6 literals are rejected with `{error: "Invalid IP address"}`
while some non-literals such as `"1.2.3.4:x"` are forwarded to lookup; the
operation is total, and every rejected input yields the error object. -/
theorem c2_amended_validation_boundary :
    (∀ db now ip, is_valid_ip ip = false →
      get_geo_for_ip db now ip = ApiResult.err "Invalid IP address") ∧
    (∀ db now ip, is_valid_ip ip = true →
      get_geo_for_ip db now ip = ApiResult.geo (find_geo db now ip)) ∧
    is_valid_ip "::1" = false ∧ is_valid_ip "1.2.3.4:x" = true ∧
    pythonIpKind "1.2.3.4:x" = none := by
  refine ⟨?_, ?_, by decide, by decide, by decide⟩ <;>
    intro db now ip h <;> simp [get_geo_for_ip, h]

theorem c2_amended_validation_boundary_witness :
    get_geo_for_ip (some []) "2026-01-01T00:00:00" "abc" =
      ApiResult.err "Invalid IP address" :=
  c2_amended_validation_boundary.1 (some []) "2026-01-01T00:00:00" "abc" (by decide)

/-! ## Claim C10 -/

/-- C10: validation inspects only the substring before the first colon: for
any colon-free `A`, `is_valid_ip (A ++ ":" ++ rest)` holds exactly when `A`
alone parses as an IP address; in particular `"1.2.3.4:anything"` — not a
valid IP literal — passes validation and is forwarded to `find_geo`. -/
theorem c10_prefix_before_colon (A rest : String) (h : ':' ∉ A.data) :
    is_valid_ip (A ++ ":" ++ rest) = (pythonIpKind A).isSome ∧
    is_valid_ip "1.2.3.4:anything" = true ∧
    pythonIpKind "1.2.3.4:anything" = none ∧
    get_geo_for_ip (some []) "2026-01-01T00:00:00" "1.2.3.4:anything" =
      ApiResult.geo (find_geo (some []) "2026-01-01T00:00:00" "1.2.3.4:anything") :=
  ⟨is_valid_ip_append A rest h, by decide, by decide, by decide⟩

theorem c10_prefix_before_colon_witness :
    is_valid_ip ("1.2.3.4" ++ ":" ++ "anything") = (pythonIpKind "1.2.3.4").isSome :=
  (c10_prefix_before_colon "1.2.3.4" "anything" (by decide)).1

/-! ## Claim C3 -/

/-- C3, counterexample: a block row whose country id resolves to an English
label with an *empty* iso/continent code and to no Arabic label.  Neither
locale supplies a non-empty code, yet the merged record carries the empty
string, not `"ZZ"`/`"XX"`: `ar.get(k) or en.get(k, "ZZ")` returns the
English *stored* value whenever the English dict has the key, even when that
value is falsy. -/
theorem c3_counterexample_empty_english_code :
    dget (load_location_labels [enRowEmptyCodes]).1 "7" = none ∧
    (dget (load_location_labels [enRowEmptyCodes]).2 "7").bind
      LocEntry.country_iso_code = some "" ∧
    (mergeRecord (load_location_labels [enRowEmptyCodes]).1
      (load_location_labels [enRowEmptyCodes]).2 "9" "7" "1" "2" "3").country.iso_code =
      some "" ∧
    (mergeRecord (load_location_labels [enRowEmptyCodes]).1
      (load_location_labels [enRowEmptyCodes]).2 "9" "7" "1" "2" "3").country.iso_code ≠
      some "ZZ" ∧
    (mergeRecord (load_location_labels [enRowEmptyCodes]).1
      (load_location_labels [enRowEmptyCodes]).2 "9" "7" "1" "2" "3").continent.code =
      some "" := by
  decide

/-- C3, amended: codes are resolved Arabic-first by Python truthiness — the
Arabic label's code when non-empty, otherwise the English label's *stored*
code whenever an English label exists for the country id (even when that
stored code is empty or missing, so the merged record can carry an empty
code), and the fixed `"ZZ"`/`"XX"` only when no English label exists. -/
theorem c3_amended_code_resolution (ar en : LocMap) (city_id country_id lat lon pc : String) :
    (pyTruthy ((dget ar country_id).bind LocEntry.country_iso_code) = true →
      (mergeRecord ar en city_id country_id lat lon pc).country.iso_code =
        (dget ar country_id).bind LocEntry.country_iso_code) ∧
    (pyTruthy ((dget ar country_id).bind LocEntry.country_iso_code) = false →
      (mergeRecord ar en city_id country_id lat lon pc).country.iso_code =
        ((dget en country_id).map LocEntry.country_iso_code).getD (some "ZZ")) ∧
    (pyTruthy ((dget ar country_id).bind LocEntry.continent_code) = true →
      (mergeRecord ar en city_id country_id lat lon pc).continent.code =
        (dget ar country_id).bind LocEntry.continent_code) ∧
    (pyTruthy ((dget ar country_id).bind LocEntry.continent_code) = false →
      (mergeRecord ar en city_id country_id lat lon pc).continent.code =
        ((dget en country_id).map LocEntry.continent_code).getD (some "XX")) := by
  refine ⟨?_, ?_, ?_, ?_⟩ <;> intro h <;>
    cases hen : dget en country_id <;> simp [mergeRecord, pyOr, h, hen]

theorem c3_amended_code_resolution_witness :
    (mergeRecord (load_location_labels [arRowSA]).1 (load_location_labels [arRowSA]).2
      "9" "7" "1" "2" "3").country.iso_code =
      (dget (load_location_labels [arRowSA]).1 "7").bind LocEntry.country_iso_code :=
  (c3_amended_code_resolution (load_location_labels [arRowSA]).1
    (load_location_labels [arRowSA]).2 "9" "7" "1" "2" "3").1 (by decide)

/-! ## Claim C4 -/

/-- C4: a rebuild that fails before the serialization step — whether the
blocks source is unreadable or a row raises while streaming — reports
status `"error"`, leaves the previously persisted index untouched, and so
every query result served from it is identical before and after. -/
theorem c4_failed_rebuild_preserves_index (ar en : LocMap)
    (source : Except String (List BlockRow)) (writeRes : Except String Unit)
    (old : Option Db) (e : String)
    (h : streamPhase ar en source = Except.error e) :
    (rebuild_mmdb ar en source writeRes old).1 =
      { status := "error", message := e, errors := none } ∧
    (rebuild_mmdb ar en source writeRes old).2 = old ∧
    (∀ now ip, find_geo (rebuild_mmdb ar en source writeRes old).2 now ip =
      find_geo old now ip) := by
  unfold rebuild_mmdb
  rw [h]
  exact ⟨rfl, rfl, fun _ _ => rfl⟩

theorem c4_failed_rebuild_preserves_index_witness :
    (rebuild_mmdb [] [] (Except.error "unreadable") (Except.ok ()) (some c1Db)).1 =
      { status := "error", message := "unreadable", errors := none } ∧
    (rebuild_mmdb [] [] (Except.error "unreadable") (Except.ok ()) (some c1Db)).2 =
      some c1Db ∧
    (∀ now ip,
      find_geo (rebuild_mmdb [] [] (Except.error "unreadable") (Except.ok ())
        (some c1Db)).2 now ip = find_geo (some c1Db) now ip) :=
  c4_failed_rebuild_preserves_index [] [] (Except.error "unreadable") (Except.ok ())
    (some c1Db) "unreadable" rfl

/-! ## Claim C5 -/

/-- A block row is retained when its stripped country id is non-empty. -/
def retainedRow (r : BlockRow) : Bool :=
  decide (pyStrip (r.registered_country_geoname_id.getD "") ≠ "")

/-- The row's network string parses (the insert succeeds). -/
def parsedOk (r : BlockRow) : Bool := (parseNetwork (r.network.getD "")).isSome

/-- Retained and inserted. -/
def goodRow (r : BlockRow) : Bool := retainedRow r && parsedOk r

/-- Retained but failing to insert (unparsable network). -/
def badNetRow (r : BlockRow) : Bool := retainedRow r && !parsedOk r

/-- The error entry recorded for a row whose insert fails. -/
def rowErrStr (r : BlockRow) : String :=
  insertErr (r.network.getD "") (netErrMsg (r.network.getD ""))

/-- The index entry a retained row contributes (none when the insert fails). -/
def rowEntry (ar en : LocMap) (r : BlockRow) : Option (Cidr × GeoRecord) :=
  match parseNetwork (r.network.getD "") with
  | some c => some (c, mergeRecord ar en (pyStrip (r.geoname_id.getD ""))
      (pyStrip (r.registered_country_geoname_id.getD ""))
      (r.latitude.getD "") (r.longitude.getD "") (r.postal_code.getD ""))
  | none => none

/-- All six keys the row loop reads are present in the row dict. -/
def rowWellFormed (r : BlockRow) : Bool :=
  r.network.isSome && r.geoname_id.isSome && r.registered_country_geoname_id.isSome &&
    r.latitude.isSome && r.longitude.isSome && r.postal_code.isSome

lemma processRows_wellFormed (ar en : LocMap) (rows : List BlockRow)
    (h : ∀ r ∈ rows, rowWellFormed r = true) :
    processRows ar en rows = Except.ok
      ((rows.filter retainedRow).filterMap (rowEntry ar en),
       (rows.filter goodRow).length,
       (rows.filter badNetRow).map rowErrStr) := by
  induction rows with
  | nil => rfl
  | cons r rest ih =>
    have hr := h r (List.mem_cons_self r rest)
    have hrest : ∀ x ∈ rest, rowWellFormed x = true :=
      fun x hx => h x (List.mem_cons_of_mem r hx)
    simp only [rowWellFormed, Bool.and_eq_true, Option.isSome_iff_exists] at hr
    obtain ⟨⟨⟨⟨⟨⟨nv, hnv⟩, gv, hgv⟩, cv, hcv⟩, lv, hlv⟩, ov, hov⟩, pv, hpv⟩ := hr
    by_cases hc : pyStrip cv = ""
    · have hret : retainedRow r = false := by simp [retainedRow, hcv, hc]
      have hbad : badNetRow r = false := by simp [badNetRow, hret]
      have hgood : goodRow r = false := by simp [goodRow, hret]
      simp [processRows, hnv, hgv, hcv, hc, ih hrest, List.filter_cons, hret, hbad, hgood]
    · have hret : retainedRow r = true := by simp [retainedRow, hcv, hc]
      cases hp : parseNetwork nv with
      | some c =>
        have hbad : badNetRow r = false := by simp [badNetRow, parsedOk, hnv, hp]
        have hgood : goodRow r = true := by simp [goodRow, hret, parsedOk, hnv, hp]
        have hent : rowEntry ar en r = some (c, mergeRecord ar en (pyStrip gv) (pyStrip cv) lv ov pv) := by
          simp [rowEntry, hnv, hgv, hcv, hlv, hov, hpv, hp]
        simp [processRows, hnv, hgv, hcv, hc, hlv, hov, hpv, hp, ih hrest,
          List.filter_cons, hret, hbad, hgood, hent]
      | none =>
        have hbad : badNetRow r = true := by simp [badNetRow, hret, parsedOk, hnv, hp]
        have hgood : goodRow r = false := by simp [goodRow, parsedOk, hnv, hp]
        have hent : rowEntry ar en r = none := by simp [rowEntry, hnv, hp]
        simp [processRows, hnv, hgv, hcv, hc, hlv, hov, hpv, hp, ih hrest,
          List.filter_cons, hret, hbad, hgood, hent, rowErrStr]

lemma retained_length_split (rows : List BlockRow) :
    (rows.filter retainedRow).length =
      (rows.filter goodRow).length + (rows.filter badNetRow).length := by
  induction rows with
  | nil => rfl
  | cons r rest ih =>
    by_cases hret : retainedRow r = true
    · by_cases hp : parsedOk r = true
      · simp [List.filter_cons, goodRow, badNetRow, hret, hp, ih]
        omega
      · simp [List.filter_cons, goodRow, badNetRow, hret, hp, ih]
        omega
    · simp [List.filter_cons, goodRow, badNetRow, hret, ih]

/-- C5: for a streamable blocks table whose rows all carry the required
keys, with `n` retained rows (non-empty stripped country id) of which `k`
fail to insert because their network is unparsable, a completing rebuild
reports `"success"` when `k = 0` and `"partial_success"` when `k > 0`, a
record count of `n - k` in the message, and exactly one error entry per
failed network carrying its error text. -/
theorem c5_rebuild_report (ar en : LocMap) (rows : List BlockRow) (old : Option Db)
    (h : ∀ r ∈ rows, rowWellFormed r = true) :
    ((rows.filter badNetRow).length = 0 →
      (rebuild_mmdb ar en (Except.ok rows) (Except.ok ()) old).1 =
        { status := "success"
          message := successMsg
            ((rows.filter retainedRow).length - (rows.filter badNetRow).length)
          errors := none }) ∧
    ((rows.filter badNetRow).length ≠ 0 →
      (rebuild_mmdb ar en (Except.ok rows) (Except.ok ()) old).1 =
        { status := "partial_success"
          message := errorsMsg
            ((rows.filter retainedRow).length - (rows.filter badNetRow).length)
          errors := some ((rows.filter badNetRow).map rowErrStr) }) := by
  have hp := processRows_wellFormed ar en rows h
  have hc : (rows.filter retainedRow).length - (rows.filter badNetRow).length =
      (rows.filter goodRow).length := by
    rw [retained_length_split]
    omega
  rw [hc]
  constructor
  · intro hk
    have hnil : rows.filter badNetRow = [] := List.length_eq_zero.mp hk
    simp [rebuild_mmdb, streamPhase, hp, hnil]
  · intro hk
    have hnil : rows.filter badNetRow ≠ [] := fun e => hk (by rw [e]; rfl)
    have hmap : (rows.filter badNetRow).map rowErrStr ≠ [] := by
      cases he : rows.filter badNetRow with
      | nil => exact absurd he hnil
      | cons a l => simp
    simp [rebuild_mmdb, streamPhase, hp, hmap]

theorem c5_rebuild_report_witness :
    ([goodRow1, skipRow1, badRow1].filter badNetRow).length ≠ 0 ∧
    (rebuild_mmdb [] [] (Except.ok [goodRow1, skipRow1, badRow1]) (Except.ok ()) none).1 =
      { status := "partial_success"
        message := errorsMsg
          (([goodRow1, skipRow1, badRow1].filter retainedRow).length -
            ([goodRow1, skipRow1, badRow1].filter badNetRow).length)
        errors := some (([goodRow1, skipRow1, badRow1].filter badNetRow).map rowErrStr) } :=
  ⟨by decide,
    (c5_rebuild_report [] [] [goodRow1, skipRow1, badRow1] none (by decide)).2 (by decide)⟩

/-! ## Claim C6 -/

lemma load_filter_keyed (rows : List LabelRow) :
    load_location_labels rows =
      load_location_labels (rows.filter (fun r => r.geoname_id.isSome)) := by
  induction rows with
  | nil => rfl
  | cons r rest ih =>
    cases hg : r.geoname_id with
    | none => simp [load_location_labels, hg, List.filter_cons, ih]
    | some g => simp [load_location_labels, hg, List.filter_cons, ih]

lemma dget_absent (rows : List LabelRow) (g : String)
    (h : ∀ r ∈ rows, r.geoname_id ≠ some g) :
    dget (load_location_labels rows).1 g = none ∧
    dget (load_location_labels rows).2 g = none := by
  induction rows with
  | nil => exact ⟨rfl, rfl⟩
  | cons r rest ih =>
    have hr := h r (List.mem_cons_self r rest)
    have hrest : ∀ x ∈ rest, x.geoname_id ≠ some g :=
      fun x hx => h x (List.mem_cons_of_mem r hx)
    obtain ⟨ih1, ih2⟩ := ih hrest
    cases hg : r.geoname_id with
    | none => simpa [load_location_labels, hg] using ⟨ih1, ih2⟩
    | some k =>
      have hk : ¬(k = g) := fun e => hr (by rw [hg, e])
      by_cases hl : r.locale_code = some "ar"
      · simp [load_location_labels, hg, hl, dget, ih1, ih2, hk]
      · simp [load_location_labels, hg, hl, dget, ih1, ih2, hk]

/-- C6: label rows whose dict lacks the `geoname_id` join key are excluded
from both locale maps — loading is unchanged by dropping them, so they never
abort the load of the remaining rows — and an identifier carried by no keyed
row is absent from both the Arabic and English stores. -/
theorem c6_keyless_rows_excluded (rows : List LabelRow) (g : String)
    (h : ∀ r ∈ rows, r.geoname_id ≠ some g) :
    load_location_labels rows =
      load_location_labels (rows.filter (fun r => r.geoname_id.isSome)) ∧
    dget (load_location_labels rows).1 g = none ∧
    dget (load_location_labels rows).2 g = none :=
  ⟨load_filter_keyed rows, (dget_absent rows g h).1, (dget_absent rows g h).2⟩

theorem c6_keyless_rows_excluded_witness :
    load_location_labels [keylessRow, arRowSA] =
      load_location_labels ([keylessRow, arRowSA].filter (fun r => r.geoname_id.isSome)) ∧
    dget (load_location_labels [keylessRow, arRowSA]).1 "555" = none ∧
    dget (load_location_labels [keylessRow, arRowSA]).2 "555" = none :=
  c6_keyless_rows_excluded [keylessRow, arRowSA] "555" (by decide)

/-! ## Claim C7 -/

/-- C7, counterexample: a found record whose stored latitude is the string
`"0"` — a zero coordinate — still gets a map link, because the map test is
Python truthiness of the *string* coordinates written by `rebuild_mmdb`
(`str(row["latitude"]).strip()`), and `"0"` is a non-empty string. -/
theorem c7_counterexample_zero_coordinate_link :
    zeroLatRecord.location.latitude = "0" ∧
    (find_geo (some zeroLatDb) "2026-01-01T00:00:00" "1.2.3.4").map =
      some (some (mapUrl "0" "10.5")) := by
  decide

/-- C7, amended: for a found address the map field is a link exactly when
both stored coordinate strings are non-empty (Python truthiness of the
strings stored by the rebuild — so a literal `"0"` yields a link), and it is
`None` otherwise; when the index cannot be opened the map key is absent. -/
theorem c7_amended_map_link (d : Db) (now ip : String) (r : GeoRecord)
    (h : reader_city d ip = Except.ok r) :
    (find_geo (some d) now ip).map =
      some (if r.location.latitude ≠ "" && r.location.longitude ≠ "" then
        some (mapUrl r.location.latitude r.location.longitude)
      else none) ∧
    (∀ now2 ip2, (find_geo none now2 ip2).map = none) := by
  exact ⟨by simp [find_geo, h], fun _ _ => rfl⟩

theorem c7_amended_map_link_witness :
    (find_geo (some zeroLatDb) "2026-01-01T00:00:00" "1.2.3.4").map =
      some (if zeroLatRecord.location.latitude ≠ "" &&
          zeroLatRecord.location.longitude ≠ "" then
        some (mapUrl zeroLatRecord.location.latitude zeroLatRecord.location.longitude)
      else none) ∧
    (∀ now2 ip2, (find_geo none now2 ip2).map = none) :=
  c7_amended_map_link zeroLatDb "2026-01-01T00:00:00" "1.2.3.4" zeroLatRecord rfl

/-! ## Claim C8 -/

/-- C8, counterexample: a block row with an empty city id is retained, but
its city name is *not* the locale fallback when a label row with an empty
`geoname_id` was stored under the dict key `""`: the lookup
`english_locations.get("")` finds that label, so the merged city name is its
city name (`"Ghost"`), not `"Unknown"`. -/
theorem c8_counterexample_empty_id_label :
    (mergeRecord (load_location_labels [ghostRow]).1 (load_location_labels [ghostRow]).2
      "" "5" "1" "2" "3").city.names.en = "Ghost" ∧
    (mergeRecord (load_location_labels [ghostRow]).1 (load_location_labels [ghostRow]).2
      "" "5" "1" "2" "3").city.names.en ≠ "Unknown" := by
  decide

/-- C8, amended: block rows whose stripped country id is empty are excluded
from the build (no entry, no count, no error); rows whose city id is empty
are retained with city names resolved by looking the empty-string key up in
the locale maps — the `"Unknown"`/`"غير معروف"` fallbacks apply exactly when
no label row was stored under the empty identifier. -/
theorem c8_amended_row_retention (ar en : LocMap) :
    (∀ (rest : List BlockRow) (r : BlockRow) (nv gv cv : String),
      r.network = some nv → r.geoname_id = some gv →
      r.registered_country_geoname_id = some cv → pyStrip cv = "" →
      processRows ar en (r :: rest) = processRows ar en rest) ∧
    (∀ country_id lat lon pc,
      (mergeRecord ar en "" country_id lat lon pc).city.names =
        { en := ((dget en "").map LocEntry.city_name).getD "Unknown"
          ar := ((dget ar "").map LocEntry.city_name).getD "غير معروف" }) := by
  constructor
  · intro rest r nv gv cv hn hg hc hs
    simp [processRows, hn, hg, hc, hs]
  · intro country_id lat lon pc
    rfl

theorem c8_amended_row_retention_witness :
    processRows [] [] [skipRow1, goodRow1] = processRows [] [] [goodRow1] :=
  (c8_amended_row_retention [] []).1 [goodRow1] skipRow1 "2.0.0.0/24" "9" " "
    rfl rfl rfl (by decide)

/-! ## Claim C9 -/

/-- C9: for every validated address, `find_geo` is total (the modelled
boundary returns a `GeoResult`, never propagates an exception): the result
always carries the `ip`, `ip_version` and `generatedAt` fields, and any
failure while opening the persisted index or during lookup is surfaced as
the structured `error` field. -/
theorem c9_find_geo_never_throws (db : Option Db) (now ip : String)
    (hv : is_valid_ip ip = true) :
    (find_geo db now ip).ip = ip ∧
    (find_geo db now ip).ip_version = get_ip_version ip ∧
    (find_geo db now ip).generatedAt = now ∧
    (db = none → (find_geo db now ip).error = some readerOpenErr) ∧
    (∀ d e, db = some d → reader_city d ip = Except.error e →
      (find_geo db now ip).error = some e) := by
  cases db with
  | none => simp [find_geo]
  | some d =>
    cases hrc : reader_city d ip with
    | error e =>
      refine ⟨by simp [find_geo, hrc], by simp [find_geo, hrc],
        by simp [find_geo, hrc], by simp, ?_⟩
      intro d' e' hd he
      cases hd
      rw [hrc] at he
      cases he
      simp [find_geo, hrc]
    | ok r =>
      refine ⟨by simp [find_geo, hrc], by simp [find_geo, hrc],
        by simp [find_geo, hrc], by simp, ?_⟩
      intro d' e' hd he
      cases hd
      rw [hrc] at he
      cases he

theorem c9_find_geo_never_throws_witness :
    (find_geo none "2026-01-01T00:00:00" "8.8.8.8").ip = "8.8.8.8" ∧
    (find_geo none "2026-01-01T00:00:00" "8.8.8.8").ip_version =
      get_ip_version "8.8.8.8" ∧
    (find_geo none "2026-01-01T00:00:00" "8.8.8.8").generatedAt =
      "2026-01-01T00:00:00" ∧
    ((none : Option Db) = none →
      (find_geo none "2026-01-01T00:00:00" "8.8.8.8").error = some readerOpenErr) ∧
    (∀ d e, (none : Option Db) = some d → reader_city d "8.8.8.8" = Except.error e →
      (find_geo none "2026-01-01T00:00:00" "8.8.8.8").error = some e) :=
  c9_find_geo_never_throws none "2026-01-01T00:00:00" "8.8.8.8" (by decide)

end Geoip
